import Mathlib

/-!
Verification development for the vostt repository.

The embedding covers the two components with genuine design content:

* `OrbitControls` (src/apps/vostt/src/app/game-engine/controls/orbit-controls.ts):
  the camera interaction state machine and the per-frame `update` algorithm.
* `Engine` (src/unnamed/part_001): the per-frame physics/render synchronization loop.

Numbers are modelled over an arbitrary `LinearOrderedField K` (the source operates on
IEEE doubles; the claims under scrutiny are order/algebra facts, so an ordered field
is the faithful exact counterpart, and instantiating `K := ℚ` keeps everything
executable).  Operations supplied by the three.js / cannon.js dependencies that are
not part of this repository's sources (trigonometric spherical conversions, `lookAt`,
`Math.pow`, `Math.sqrt`, `Math.tan`, `Math.PI`, camera matrix columns, and the physics
world step) are threaded through as explicit parameters (`Ext`, `stepW`); every claim
proved below holds for all values of those parameters.
-/

namespace Vostt

/-- Lifecycle events dispatched by the controller (`start`, `change`, `end`). -/
inductive Evt
  | start
  | change
  | ended
deriving DecidableEq

/-- Plain 2-component vector (three.js `Vector2`). -/
structure Vec2 (K : Type) where
  x : K
  y : K
deriving DecidableEq

/-- Plain 3-component vector (three.js `Vector3`). -/
structure Vec3 (K : Type) where
  x : K
  y : K
  z : K
deriving DecidableEq

/-- Quaternion (three.js `Quaternion`). -/
structure Quat (K : Type) where
  x : K
  y : K
  z : K
  w : K
deriving DecidableEq

/-- Spherical coordinates (three.js `Spherical`): radius, azimuth `theta`, polar `phi`. -/
structure Spherical (K : Type) where
  radius : K
  theta : K
  phi : K
deriving DecidableEq

variable {K : Type} [LinearOrderedField K]

def Vec2.sub (a b : Vec2 K) : Vec2 K := ⟨a.x - b.x, a.y - b.y⟩

def Vec2.smul (s : K) (a : Vec2 K) : Vec2 K := ⟨s * a.x, s * a.y⟩

def Vec2.addV (a b : Vec2 K) : Vec2 K := ⟨a.x + b.x, a.y + b.y⟩

def Vec3.add (a b : Vec3 K) : Vec3 K := ⟨a.x + b.x, a.y + b.y, a.z + b.z⟩

def Vec3.sub (a b : Vec3 K) : Vec3 K := ⟨a.x - b.x, a.y - b.y, a.z - b.z⟩

def Vec3.smul (s : K) (a : Vec3 K) : Vec3 K := ⟨s * a.x, s * a.y, s * a.z⟩

/-- three.js `Vector3.crossVectors`. -/
def Vec3.cross (a b : Vec3 K) : Vec3 K :=
  ⟨a.y * b.z - a.z * b.y, a.z * b.x - a.x * b.z, a.x * b.y - a.y * b.x⟩

/-- three.js `Vector3.distanceToSquared`. -/
def dist2 (a b : Vec3 K) : K :=
  (a.x - b.x) * (a.x - b.x) + (a.y - b.y) * (a.y - b.y) + (a.z - b.z) * (a.z - b.z)

/-- three.js `Quaternion.dot`. -/
def Quat.dot (a b : Quat K) : K := a.x * b.x + a.y * b.y + a.z * b.z + a.w * b.w

/-! ### Enumerations (orbit-controls.ts lines 17-26, three.js `MOUSE` / `TOUCH`)

The source `enum STATE` assigns the integer values -1..6; the `state` field of the
controller is that integer, mirrored here as `Int` so that "state is one of the eight
enumerated values" is a real proof obligation, not a typing triviality. -/

def STATE_NONE : Int := -1

def STATE_ROTATE : Int := 0

def STATE_DOLLY : Int := 1

def STATE_PAN : Int := 2

def STATE_TOUCH_ROTATE : Int := 3

def STATE_TOUCH_PAN : Int := 4

def STATE_TOUCH_DOLLY_PAN : Int := 5

def STATE_TOUCH_DOLLY_ROTATE : Int := 6

def MOUSE_ROTATE : Int := 0

def MOUSE_DOLLY : Int := 1

def MOUSE_PAN : Int := 2

def TOUCH_ROTATE : Int := 0

def TOUCH_PAN : Int := 1

def TOUCH_DOLLY_PAN : Int := 2

def TOUCH_DOLLY_ROTATE : Int := 3

/-- The camera's projection kind with its projection parameters.  The source type is
`PerspectiveCamera | OrthographicCamera`, discriminated at runtime through the
`isPerspectiveCamera` / `isOrthographicCamera` tags; `unknown` models an object
carrying neither tag (the degrade-not-crash branch of `pan` / `dollyIn` / `dollyOut`). -/
inductive CameraKind (K : Type)
  | perspective (fov : K)
  | orthographic (left right top bottom : K)
  | unknown
deriving DecidableEq

/-- External operations supplied by the three.js dependency (not part of this
repository's sources).  `piK` stands for `Math.PI`, `powK` for `Math.pow`, `tanK`
for `Math.tan`, `sqrtK` for `Math.sqrt`; `lengthV` is `Vector3.length`;
`sphericalFromOffset` is the composition of `Vector3.applyQuaternion(this.quat)` with
`Spherical.setFromVector3` (orbit-controls.ts lines 222-228); `offsetFromSpherical`
is `Vector3.setFromSpherical` followed by `applyQuaternion(this.quatInverse)`
(lines 274-277); `lookAtQuat` is the orientation produced by
`camera.lookAt(target)` at the given position/target (line 281); `matrixCol i` is
column `i` of `camera.matrix` (used by `panLeft` / `panUp`). -/
structure Ext (K : Type) where
  piK : K
  powK : K → K → K
  tanK : K → K
  sqrtK : K → K
  lengthV : Vec3 K → K
  sphericalFromOffset : Vec3 K → Spherical K
  offsetFromSpherical : Spherical K → Vec3 K
  lookAtQuat : Vec3 K → Vec3 K → Quat K
  matrixCol : Nat → Vec3 K

/-- The `OrbitControls` instance state: one field per mutable field of the source
class (orbit-controls.ts lines 35-142).  Preallocated scratch vectors (`panLeftV`,
`panUpV`, `_panOffset`, `offset`) are elided: each is fully recomputed before every
read, so it carries no state across calls.  `camera*` fields mirror the camera
object the controller mutates in place.  `events` accumulates dispatched lifecycle
events (`EventDispatcher.dispatchEvent`), `warnings` counts `console.warn` calls. -/
structure OC (K : Type) where
  enabled : Bool
  target : Vec3 K
  minDistance : K
  maxDistance : K
  minZoom : K
  maxZoom : K
  minPolarAngle : K
  maxPolarAngle : K
  minAzimuthAngle : K
  maxAzimuthAngle : K
  enableDamping : Bool
  dampingFactor : K
  enableZoom : Bool
  zoomSpeed : K
  enableRotate : Bool
  rotateSpeed : K
  enablePan : Bool
  panSpeed : K
  screenSpacePanning : Bool
  keyPanSpeed : K
  autoRotate : Bool
  autoRotateSpeed : K
  enableKeys : Bool
  keysLEFT : Nat
  keysUP : Nat
  keysRIGHT : Nat
  keysBOTTOM : Nat
  mouseButtonLeft : Int
  mouseButtonMiddle : Int
  mouseButtonRight : Int
  touchesOne : Int
  touchesTwo : Int
  target0 : Vec3 K
  position0 : Vec3 K
  zoom0 : K
  state : Int
  spherical : Spherical K
  sphericalDelta : Spherical K
  scale : K
  panOffset : Vec3 K
  zoomChanged : Bool
  rotateStart : Vec2 K
  rotateEnd : Vec2 K
  rotateDelta : Vec2 K
  panStart : Vec2 K
  panEnd : Vec2 K
  panDelta : Vec2 K
  dollyStart : Vec2 K
  dollyEnd : Vec2 K
  dollyDelta : Vec2 K
  lastPosition : Vec3 K
  lastQuaternion : Quat K
  camera : CameraKind K
  cameraPosition : Vec3 K
  cameraQuaternion : Quat K
  cameraZoom : K
  cameraUp : Vec3 K
  clientWidth : K
  clientHeight : K
  events : List Evt
  warnings : Nat
deriving DecidableEq

/-- The controller's private epsilon `this.EPS = 0.000001` (line 107), used in the
change-detection gate of `update`. -/
def EPS : K := 1 / 1000000

/-- The epsilon of three.js `Spherical.makeSafe`, also `0.000001`:
`makeSafe` clamps `phi` to `[EPS, PI - EPS]`. -/
def makeSafeEPS : K := 1 / 1000000

/-- `EventDispatcher.dispatchEvent`, recorded into the `events` trace. -/
def dispatchEvent (e : Evt) (c : OC K) : OC K := { c with events := c.events ++ [e] }

/-- orbit-controls.ts lines 340-344. -/
def getAutoRotationAngle (ext : Ext K) (c : OC K) : K :=
  2 * ext.piK / 60 / 60 * c.autoRotateSpeed

/-- orbit-controls.ts lines 346-350: `Math.pow(0.95, this.zoomSpeed)`. -/
def getZoomScale (ext : Ext K) (c : OC K) : K := ext.powK (95 / 100) c.zoomSpeed

/-- orbit-controls.ts lines 352-356. -/
def rotateLeft (angle : K) (c : OC K) : OC K :=
  { c with sphericalDelta := { c.sphericalDelta with theta := c.sphericalDelta.theta - angle } }

/-- orbit-controls.ts lines 358-362. -/
def rotateUp (angle : K) (c : OC K) : OC K :=
  { c with sphericalDelta := { c.sphericalDelta with phi := c.sphericalDelta.phi - angle } }

/-- orbit-controls.ts lines 364-369. -/
def panLeft (ext : Ext K) (distance : K) (c : OC K) : OC K :=
  { c with panOffset := c.panOffset.add (Vec3.smul (-distance) (ext.matrixCol 0)) }

/-- orbit-controls.ts lines 371-388. -/
def panUp (ext : Ext K) (distance : K) (c : OC K) : OC K :=
  { c with panOffset := c.panOffset.add (Vec3.smul distance
      (if c.screenSpacePanning = true then ext.matrixCol 1
       else Vec3.cross c.cameraUp (ext.matrixCol 0))) }

/-- orbit-controls.ts lines 390-422: `pan(deltaX, deltaY)`.  The `unknown` branch is
the degrade-not-crash path: warn and clear `enablePan`, touching nothing else. -/
def pan (ext : Ext K) (deltaX deltaY : K) (c : OC K) : OC K :=
  match c.camera with
  | CameraKind.perspective fov =>
      let targetDistance :=
        ext.lengthV (c.cameraPosition.sub c.target) * ext.tanK ((fov / 2) * ext.piK / 180)
      panUp ext (2 * deltaY * targetDistance / c.clientHeight)
        (panLeft ext (2 * deltaX * targetDistance / c.clientHeight) c)
  | CameraKind.orthographic left right top bottom =>
      panUp ext (deltaY * (top - bottom) / c.cameraZoom / c.clientHeight)
        (panLeft ext (deltaX * (right - left) / c.cameraZoom / c.clientWidth) c)
  | CameraKind.unknown =>
      { c with enablePan := false, warnings := c.warnings + 1 }

/-- orbit-controls.ts lines 425-444: `dollyIn(dollyScale)`. -/
def dollyIn (dollyScale : K) (c : OC K) : OC K :=
  match c.camera with
  | CameraKind.perspective _ => { c with scale := c.scale / dollyScale }
  | CameraKind.orthographic _ _ _ _ =>
      { c with cameraZoom := max c.minZoom (min c.maxZoom (c.cameraZoom * dollyScale)),
               zoomChanged := true }
  | CameraKind.unknown =>
      { c with enableZoom := false, warnings := c.warnings + 1 }

/-- orbit-controls.ts lines 446-465: `dollyOut(dollyScale)`. -/
def dollyOut (dollyScale : K) (c : OC K) : OC K :=
  match c.camera with
  | CameraKind.perspective _ => { c with scale := c.scale * dollyScale }
  | CameraKind.orthographic _ _ _ _ =>
      { c with cameraZoom := max c.minZoom (min c.maxZoom (c.cameraZoom / dollyScale)),
               zoomChanged := true }
  | CameraKind.unknown =>
      { c with enableZoom := false, warnings := c.warnings + 1 }

/-! ### The `update` algorithm (orbit-controls.ts lines 219-319)

`update` is decomposed into named straight-line pieces, each annotated with the
source lines it embeds; `update` itself glues them in source order. -/

/-- Lines 222-228: spherical coordinates recomputed from the camera offset. -/
def sphIn (ext : Ext K) (c : OC K) : Spherical K :=
  ext.sphericalFromOffset (c.cameraPosition.sub c.target)

/-- Lines 230-234: when auto-rotating with no active interaction,
`rotateLeft(getAutoRotationAngle())` is applied to `sphericalDelta` first. -/
def autoRotatedDelta (ext : Ext K) (c : OC K) : Spherical K :=
  if c.autoRotate = true ∧ c.state = STATE_NONE then
    (rotateLeft (getAutoRotationAngle ext c) c).sphericalDelta
  else c.sphericalDelta

/-- Lines 236-246: pending angular delta applied to `theta`, damped or in full. -/
def updateThetaRaw (ext : Ext K) (c : OC K) : K :=
  (sphIn ext c).theta +
    (if c.enableDamping = true then (autoRotatedDelta ext c).theta * c.dampingFactor
     else (autoRotatedDelta ext c).theta)

/-- Line 249: `theta` clamped to the azimuth limits. -/
def updateTheta (ext : Ext K) (c : OC K) : K :=
  max c.minAzimuthAngle (min c.maxAzimuthAngle (updateThetaRaw ext c))

/-- Lines 236-246 for `phi`. -/
def updatePhiRaw (ext : Ext K) (c : OC K) : K :=
  (sphIn ext c).phi +
    (if c.enableDamping = true then (autoRotatedDelta ext c).phi * c.dampingFactor
     else (autoRotatedDelta ext c).phi)

/-- Line 252: `phi` clamped to the polar limits. -/
def updatePhiClamped (ext : Ext K) (c : OC K) : K :=
  max c.minPolarAngle (min c.maxPolarAngle (updatePhiRaw ext c))

/-- Line 254: `Spherical.makeSafe` pole-safety clamp of `phi` to `[EPS, PI - EPS]`. -/
def updatePhi (ext : Ext K) (c : OC K) : K :=
  max makeSafeEPS (min (ext.piK - makeSafeEPS) (updatePhiClamped ext c))

/-- Lines 257-260: radius multiplied by the pending scale, then clamped. -/
def updateRadius (ext : Ext K) (c : OC K) : K :=
  max c.minDistance (min c.maxDistance ((sphIn ext c).radius * c.scale))

/-- Lines 262-272: target moved by the pending pan offset, damped or in full. -/
def updateTarget (c : OC K) : Vec3 K :=
  if c.enableDamping = true then c.target.add (Vec3.smul c.dampingFactor c.panOffset)
  else c.target.add c.panOffset

/-- The updated spherical coordinates stored back into `this.spherical`. -/
def updateSpherical (ext : Ext K) (c : OC K) : Spherical K :=
  ⟨updateRadius ext c, updateTheta ext c, updatePhi ext c⟩

/-- Lines 274-279: camera position rebuilt from the new spherical + new target. -/
def updatePosition (ext : Ext K) (c : OC K) : Vec3 K :=
  (updateTarget c).add (ext.offsetFromSpherical (updateSpherical ext c))

/-- Line 281: orientation after `camera.lookAt(this.target)`. -/
def updateQuat (ext : Ext K) (c : OC K) : Quat K :=
  ext.lookAtQuat (updatePosition ext c) (updateTarget c)

/-- Lines 283-296: decay of the angular accumulator.  With damping, only the
`theta` and `phi` components are multiplied by `1 - dampingFactor` (the unused
`radius` component is untouched); without damping, `set(0, 0, 0)` zeroes all three. -/
def updateSphericalDelta (ext : Ext K) (c : OC K) : Spherical K :=
  if c.enableDamping = true then
    ⟨(autoRotatedDelta ext c).radius,
     (autoRotatedDelta ext c).theta * (1 - c.dampingFactor),
     (autoRotatedDelta ext c).phi * (1 - c.dampingFactor)⟩
  else ⟨0, 0, 0⟩

/-- Lines 283-296: decay of the pan accumulator. -/
def updatePanOffset (c : OC K) : Vec3 K :=
  if c.enableDamping = true then Vec3.smul (1 - c.dampingFactor) c.panOffset
  else ⟨0, 0, 0⟩

/-- Lines 304-306: the change-detection condition,
`zoomChanged || |lastPosition - position|^2 > EPS || 8(1 - lastQ . q) > EPS`. -/
def updateCondB (ext : Ext K) (c : OC K) : Bool :=
  c.zoomChanged
    || decide ((EPS : K) < dist2 c.lastPosition (updatePosition ext c))
    || decide ((EPS : K) < 8 * (1 - Quat.dot c.lastQuaternion (updateQuat ext c)))

/-- The state mutations of `update` performed unconditionally (lines 219-298). -/
def updateCore (ext : Ext K) (c : OC K) : OC K :=
  { c with
    spherical := updateSpherical ext c,
    sphericalDelta := updateSphericalDelta ext c,
    panOffset := updatePanOffset c,
    scale := 1,
    target := updateTarget c,
    cameraPosition := updatePosition ext c,
    cameraQuaternion := updateQuat ext c }

/-- orbit-controls.ts lines 219-319: `update()`.  Returns the new state and the
boolean the source returns; when the change condition holds it dispatches
`change`, refreshes the last recorded pose, and clears `zoomChanged`. -/
def update (ext : Ext K) (c : OC K) : OC K × Bool :=
  if updateCondB ext c = true then
    ({ dispatchEvent Evt.change (updateCore ext c) with
        lastPosition := updatePosition ext c,
        lastQuaternion := updateQuat ext c,
        zoomChanged := false }, true)
  else (updateCore ext c, false)

/-- orbit-controls.ts lines 195-201: `saveState()`. -/
def saveState (c : OC K) : OC K :=
  { c with target0 := c.target, position0 := c.cameraPosition, zoom0 := c.cameraZoom }

/-- orbit-controls.ts lines 205-209: the restoring assignments at the start of
`reset()` (`updateProjectionMatrix` touches no modelled state). -/
def resetRestore (c : OC K) : OC K :=
  { c with target := c.target0, cameraPosition := c.position0, cameraZoom := c.zoom0 }

/-- orbit-controls.ts lines 203-216: `reset()` restores the saved pose, dispatches
`change`, runs `update()`, and finally sets `state := NONE`. -/
def reset (ext : Ext K) (c : OC K) : OC K :=
  { (update ext (dispatchEvent Evt.change (resetRestore c))).1 with state := STATE_NONE }

/-! ### Input handlers (orbit-controls.ts lines 471-741) -/

/-- Lines 471-475. -/
def handleMouseDownRotate (x y : K) (c : OC K) : OC K := { c with rotateStart := ⟨x, y⟩ }

/-- Lines 477-481. -/
def handleMouseDownDolly (x y : K) (c : OC K) : OC K := { c with dollyStart := ⟨x, y⟩ }

/-- Lines 483-487. -/
def handleMouseDownPan (x y : K) (c : OC K) : OC K := { c with panStart := ⟨x, y⟩ }

/-- Lines 489-505. -/
def handleMouseMoveRotate (ext : Ext K) (x y : K) (c : OC K) : OC K :=
  let rEnd : Vec2 K := ⟨x, y⟩
  let rDelta := Vec2.smul c.rotateSpeed (rEnd.sub c.rotateStart)
  let c1 := { c with rotateEnd := rEnd, rotateDelta := rDelta }
  let c2 := rotateUp (2 * ext.piK * rDelta.y / c.clientHeight)
              (rotateLeft (2 * ext.piK * rDelta.x / c.clientHeight) c1)
  (update ext { c2 with rotateStart := rEnd }).1

/-- Lines 507-527. -/
def handleMouseMoveDolly (ext : Ext K) (x y : K) (c : OC K) : OC K :=
  let dEnd : Vec2 K := ⟨x, y⟩
  let dDelta := dEnd.sub c.dollyStart
  let c1 := { c with dollyEnd := dEnd, dollyDelta := dDelta }
  let c2 := if 0 < dDelta.y then dollyIn (getZoomScale ext c1) c1
            else if dDelta.y < 0 then dollyOut (getZoomScale ext c1) c1
            else c1
  (update ext { c2 with dollyStart := dEnd }).1

/-- Lines 529-541. -/
def handleMouseMovePan (ext : Ext K) (x y : K) (c : OC K) : OC K :=
  let pEnd : Vec2 K := ⟨x, y⟩
  let pDelta := Vec2.smul c.panSpeed (pEnd.sub c.panStart)
  let c1 := pan ext pDelta.x pDelta.y { c with panEnd := pEnd, panDelta := pDelta }
  (update ext { c1 with panStart := pEnd }).1

/-- Lines 543-553: the dolly branch of `handleMouseWheel`. -/
def wheelDollyStep (ext : Ext K) (deltaY : K) (c : OC K) : OC K :=
  if deltaY < 0 then dollyOut (getZoomScale ext c) c
  else if 0 < deltaY then dollyIn (getZoomScale ext c) c
  else c

/-- Lines 543-557: `handleMouseWheel` = dolly branch followed by `update()`. -/
def handleMouseWheel (ext : Ext K) (deltaY : K) (c : OC K) : OC K :=
  (update ext (wheelDollyStep ext deltaY c)).1

/-- Lines 559-597: arrow-key pan; each recognized key pans then updates. -/
def handleKeyDown (ext : Ext K) (code : Nat) (c : OC K) : OC K :=
  if code = c.keysUP then (update ext (pan ext 0 c.keyPanSpeed c)).1
  else if code = c.keysBOTTOM then (update ext (pan ext 0 (-c.keyPanSpeed) c)).1
  else if code = c.keysLEFT then (update ext (pan ext c.keyPanSpeed 0 c)).1
  else if code = c.keysRIGHT then (update ext (pan ext (-c.keyPanSpeed) 0 c)).1
  else c

/-- Touch list access.  The source indexes `event.touches` unchecked (browsers
guarantee well-formed lists); out-of-range access is modelled as a zero point. -/
def touchAt (ts : List (Vec2 K)) (i : Nat) : Vec2 K := ts.getD i ⟨0, 0⟩

/-- Lines 599-614. -/
def handleTouchStartRotate (ts : List (Vec2 K)) (c : OC K) : OC K :=
  if ts.length = 1 then { c with rotateStart := touchAt ts 0 }
  else { c with rotateStart := Vec2.smul (1 / 2) ((touchAt ts 0).addV (touchAt ts 1)) }

/-- Lines 616-631. -/
def handleTouchStartPan (ts : List (Vec2 K)) (c : OC K) : OC K :=
  if ts.length = 1 then { c with panStart := touchAt ts 0 }
  else { c with panStart := Vec2.smul (1 / 2) ((touchAt ts 0).addV (touchAt ts 1)) }

/-- Lines 633-642. -/
def handleTouchStartDolly (ext : Ext K) (ts : List (Vec2 K)) (c : OC K) : OC K :=
  let dx := (touchAt ts 0).x - (touchAt ts 1).x
  let dy := (touchAt ts 0).y - (touchAt ts 1).y
  { c with dollyStart := ⟨0, ext.sqrtK (dx * dx + dy * dy)⟩ }

/-- Lines 644-650. -/
def handleTouchStartDollyPan (ext : Ext K) (ts : List (Vec2 K)) (c : OC K) : OC K :=
  let c1 := if c.enableZoom = true then handleTouchStartDolly ext ts c else c
  if c1.enablePan = true then handleTouchStartPan ts c1 else c1

/-- Lines 652-658. -/
def handleTouchStartDollyRotate (ext : Ext K) (ts : List (Vec2 K)) (c : OC K) : OC K :=
  let c1 := if c.enableZoom = true then handleTouchStartDolly ext ts c else c
  if c1.enableRotate = true then handleTouchStartRotate ts c1 else c1

/-- Lines 660-685. -/
def handleTouchMoveRotate (ext : Ext K) (ts : List (Vec2 K)) (c : OC K) : OC K :=
  let rEnd := if ts.length = 1 then touchAt ts 0
              else Vec2.smul (1 / 2) ((touchAt ts 0).addV (touchAt ts 1))
  let rDelta := Vec2.smul c.rotateSpeed (rEnd.sub c.rotateStart)
  let c1 := { c with rotateEnd := rEnd, rotateDelta := rDelta }
  let c2 := rotateUp (2 * ext.piK * rDelta.y / c.clientHeight)
              (rotateLeft (2 * ext.piK * rDelta.x / c.clientHeight) c1)
  { c2 with rotateStart := rEnd }

/-- Lines 687-708. -/
def handleTouchMovePan (ext : Ext K) (ts : List (Vec2 K)) (c : OC K) : OC K :=
  let pEnd := if ts.length = 1 then touchAt ts 0
              else Vec2.smul (1 / 2) ((touchAt ts 0).addV (touchAt ts 1))
  let pDelta := Vec2.smul c.panSpeed (pEnd.sub c.panStart)
  let c1 := pan ext pDelta.x pDelta.y { c with panEnd := pEnd, panDelta := pDelta }
  { c1 with panStart := pEnd }

/-- Lines 710-725. -/
def handleTouchMoveDolly (ext : Ext K) (ts : List (Vec2 K)) (c : OC K) : OC K :=
  let dx := (touchAt ts 0).x - (touchAt ts 1).x
  let dy := (touchAt ts 0).y - (touchAt ts 1).y
  let dEnd : Vec2 K := ⟨0, ext.sqrtK (dx * dx + dy * dy)⟩
  let dDelta : Vec2 K := ⟨0, ext.powK (dEnd.y / c.dollyStart.y) c.zoomSpeed⟩
  let c1 := dollyIn dDelta.y { c with dollyEnd := dEnd, dollyDelta := dDelta }
  { c1 with dollyStart := dEnd }

/-- Lines 727-733. -/
def handleTouchMoveDollyPan (ext : Ext K) (ts : List (Vec2 K)) (c : OC K) : OC K :=
  let c1 := if c.enableZoom = true then handleTouchMoveDolly ext ts c else c
  if c1.enablePan = true then handleTouchMovePan ext ts c1 else c1

/-- Lines 735-741. -/
def handleTouchMoveDollyRotate (ext : Ext K) (ts : List (Vec2 K)) (c : OC K) : OC K :=
  let c1 := if c.enableZoom = true then handleTouchMoveDolly ext ts c else c
  if c1.enableRotate = true then handleTouchMoveRotate ext ts c1 else c1

/-! ### FSM event handlers (orbit-controls.ts lines 747-1196) -/

/-- The action dispatch shared by the left-button (lines 760-826) and
middle-button (lines 829-894) cases of `onMouseDown`: both map the configured
action through the same modifier/enable-flag logic (the middle-button switch
lists `DOLLY` first, with identical per-case bodies).  The second component
records an early `return` (which also skips the trailing start-dispatch block). -/
def mouseDownAction (a : Int) (modifierK : Bool) (x y : K) (c : OC K) : OC K × Bool :=
  if a = MOUSE_ROTATE then
    if modifierK = true then
      if c.enablePan = false then (c, true)
      else ({ handleMouseDownPan x y c with state := STATE_PAN }, false)
    else
      if c.enableRotate = false then (c, true)
      else ({ handleMouseDownRotate x y c with state := STATE_ROTATE }, false)
  else if a = MOUSE_DOLLY then
    if c.enableZoom = false then (c, true)
    else ({ handleMouseDownDolly x y c with state := STATE_DOLLY }, false)
  else if a = MOUSE_PAN then
    if modifierK = true then
      if c.enableRotate = false then (c, true)
      else ({ handleMouseDownRotate x y c with state := STATE_ROTATE }, false)
    else
      if c.enablePan = false then (c, true)
      else ({ handleMouseDownPan x y c with state := STATE_PAN }, false)
  else ({ c with state := STATE_NONE }, false)

/-- The right-button case of `onMouseDown` (lines 896-948): unlike the other
buttons, its `MOUSE.PAN` case (lines 922-930) starts a pan unconditionally,
gated only on `enablePan`, with no modifier-to-rotate swap; only its
`MOUSE.ROTATE` case swaps to pan under a modifier key. -/
def mouseDownActionRight (a : Int) (modifierK : Bool) (x y : K) (c : OC K) : OC K × Bool :=
  if a = MOUSE_ROTATE then
    if modifierK = true then
      if c.enablePan = false then (c, true)
      else ({ handleMouseDownPan x y c with state := STATE_PAN }, false)
    else
      if c.enableRotate = false then (c, true)
      else ({ handleMouseDownRotate x y c with state := STATE_ROTATE }, false)
  else if a = MOUSE_PAN then
    if c.enablePan = false then (c, true)
    else ({ handleMouseDownPan x y c with state := STATE_PAN }, false)
  else if a = MOUSE_DOLLY then
    if c.enableZoom = false then (c, true)
    else ({ handleMouseDownDolly x y c with state := STATE_DOLLY }, false)
  else ({ c with state := STATE_NONE }, false)

/-- The trailing start-dispatch block shared by `onMouseDown` (lines 952-959) and
`onTouchStart` (lines 1115-1119): unless the handler returned early, dispatch
`start` when the (possibly unchanged) state is not `NONE`.  Document-level
listener registration has no modelled state. -/
def startDispatch (r : OC K × Bool) : OC K :=
  if r.2 = true then r.1
  else if r.1.state ≠ STATE_NONE then dispatchEvent Evt.start r.1 else r.1

/-- Lines 747-961: `onMouseDown`.  `modifierK` is `ctrlKey || metaKey || shiftKey`.
Buttons other than 0/1/2 fall through the switch leaving all state unchanged,
but still reach the trailing start-dispatch block. -/
def onMouseDown (button : Nat) (modifierK : Bool) (x y : K) (c : OC K) : OC K :=
  if c.enabled = false then c
  else startDispatch
    (if button = 0 then mouseDownAction c.mouseButtonLeft modifierK x y c
     else if button = 1 then mouseDownAction c.mouseButtonMiddle modifierK x y c
     else if button = 2 then mouseDownActionRight c.mouseButtonRight modifierK x y c
     else (c, false))

/-- Lines 963-997: `onMouseMove`. -/
def onMouseMove (ext : Ext K) (x y : K) (c : OC K) : OC K :=
  if c.enabled = false then c
  else if c.state = STATE_ROTATE then
    if c.enableRotate = false then c else handleMouseMoveRotate ext x y c
  else if c.state = STATE_DOLLY then
    if c.enableZoom = false then c else handleMouseMoveDolly ext x y c
  else if c.state = STATE_PAN then
    if c.enablePan = false then c else handleMouseMovePan ext x y c
  else c

/-- Lines 999-1010: `onMouseUp` dispatches `end` and resets `state` to `NONE`. -/
def onMouseUp (c : OC K) : OC K :=
  if c.enabled = false then c
  else { dispatchEvent Evt.ended c with state := STATE_NONE }

/-- Lines 1012-1027: `onMouseWheel`, gated on `enabled`, `enableZoom` and
`state ∈ {NONE, ROTATE}`; an atomic `start` / dolly+update / `end` triple. -/
def onMouseWheel (ext : Ext K) (deltaY : K) (c : OC K) : OC K :=
  if c.enabled = false ∨ c.enableZoom = false ∨
     (c.state ≠ STATE_NONE ∧ c.state ≠ STATE_ROTATE) then c
  else dispatchEvent Evt.ended (handleMouseWheel ext deltaY (dispatchEvent Evt.start c))

/-- Lines 1029-1035: `onKeyDown`. -/
def onKeyDown (ext : Ext K) (code : Nat) (c : OC K) : OC K :=
  if c.enabled = false ∨ c.enableKeys = false ∨ c.enablePan = false then c
  else handleKeyDown ext code c

/-- The touch-count/role switch of `onTouchStart` (lines 1043-1113); the second
component records an early `return` (which skips the trailing start-dispatch). -/
def touchStartAction (ext : Ext K) (ts : List (Vec2 K)) (c : OC K) : OC K × Bool :=
  if ts.length = 1 then
    if c.touchesOne = TOUCH_ROTATE then
      if c.enableRotate = false then (c, true)
      else ({ handleTouchStartRotate ts c with state := STATE_TOUCH_ROTATE }, false)
    else if c.touchesOne = TOUCH_PAN then
      if c.enablePan = false then (c, true)
      else ({ handleTouchStartPan ts c with state := STATE_TOUCH_PAN }, false)
    else ({ c with state := STATE_NONE }, false)
  else if ts.length = 2 then
    if c.touchesTwo = TOUCH_DOLLY_PAN then
      if c.enableZoom = false ∧ c.enablePan = false then (c, true)
      else ({ handleTouchStartDollyPan ext ts c with state := STATE_TOUCH_DOLLY_PAN }, false)
    else if c.touchesTwo = TOUCH_DOLLY_ROTATE then
      if c.enableZoom = false ∧ c.enableRotate = false then (c, true)
      else ({ handleTouchStartDollyRotate ext ts c with
                state := STATE_TOUCH_DOLLY_ROTATE }, false)
    else ({ c with state := STATE_NONE }, false)
  else ({ c with state := STATE_NONE }, false)

/-- Lines 1037-1121: `onTouchStart`. -/
def onTouchStart (ext : Ext K) (ts : List (Vec2 K)) (c : OC K) : OC K :=
  if c.enabled = false then c
  else startDispatch (touchStartAction ext ts c)

/-- Lines 1123-1178: `onTouchMove`; a state not matching any touch case is reset
to `NONE` by the default branch. -/
def onTouchMove (ext : Ext K) (ts : List (Vec2 K)) (c : OC K) : OC K :=
  if c.enabled = false then c
  else if c.state = STATE_TOUCH_ROTATE then
    if c.enableRotate = false then c
    else (update ext (handleTouchMoveRotate ext ts c)).1
  else if c.state = STATE_TOUCH_PAN then
    if c.enablePan = false then c
    else (update ext (handleTouchMovePan ext ts c)).1
  else if c.state = STATE_TOUCH_DOLLY_PAN then
    if c.enableZoom = false ∧ c.enablePan = false then c
    else (update ext (handleTouchMoveDollyPan ext ts c)).1
  else if c.state = STATE_TOUCH_DOLLY_ROTATE then
    if c.enableZoom = false ∧ c.enableRotate = false then c
    else (update ext (handleTouchMoveDollyRotate ext ts c)).1
  else { c with state := STATE_NONE }

/-- Lines 1180-1188: `onTouchEnd` dispatches `end` and resets `state` to `NONE`. -/
def onTouchEnd (c : OC K) : OC K :=
  if c.enabled = false then c
  else { dispatchEvent Evt.ended c with state := STATE_NONE }

/-- A raw input event as delivered by the hosting surface. -/
inductive InputEvent (K : Type)
  | mouseDown (button : Nat) (modifierK : Bool) (x y : K)
  | mouseMove (x y : K)
  | mouseUp
  | wheel (deltaY : K)
  | touchStart (ts : List (Vec2 K))
  | touchMove (ts : List (Vec2 K))
  | touchEnd
  | keyDown (code : Nat)

/-- Events that can begin an interaction (pointer-down / touch-start). -/
def isStart : InputEvent K → Bool
  | InputEvent.mouseDown _ _ _ _ => true
  | InputEvent.touchStart _ => true
  | _ => false

/-- Delivery of one input event to the controller's registered handler. -/
def handleEvent (ext : Ext K) (c : OC K) : InputEvent K → OC K
  | InputEvent.mouseDown b m x y => onMouseDown b m x y c
  | InputEvent.mouseMove x y => onMouseMove ext x y c
  | InputEvent.mouseUp => onMouseUp c
  | InputEvent.wheel d => onMouseWheel ext d c
  | InputEvent.touchStart ts => onTouchStart ext ts c
  | InputEvent.touchMove ts => onTouchMove ext ts c
  | InputEvent.touchEnd => onTouchEnd c
  | InputEvent.keyDown k => onKeyDown ext k c

/-- Delivery of a sequence of input events, in order. -/
def runEvents (ext : Ext K) (c : OC K) (es : List (InputEvent K)) : OC K :=
  es.foldl (handleEvent ext) c

/-- The eight enumerated interaction states. -/
def validState (s : Int) : Prop :=
  s = STATE_NONE ∨ s = STATE_ROTATE ∨ s = STATE_DOLLY ∨ s = STATE_PAN ∨
  s = STATE_TOUCH_ROTATE ∨ s = STATE_TOUCH_PAN ∨ s = STATE_TOUCH_DOLLY_PAN ∨
  s = STATE_TOUCH_DOLLY_ROTATE

/-! ### Engine render loop (src/unnamed/part_001) -/

/-- One frame-loop action, in the order the `Engine.render` body performs them. -/
inductive EngineAction (K : Type)
  | physicsStep (h dt : K) (maxSubSteps : Nat)
  | syncEntity (idx : Nat)
  | cameraUpdate
  | renderCall
  | requestFrame
deriving DecidableEq

/-- An `Entity`: a visual mesh pose and a rigid-body pose (entity.ts). -/
structure EngineEntity (K : Type) where
  meshPosition : Vec3 K
  meshQuaternion : Quat K
  bodyPosition : Vec3 K
  bodyQuaternion : Quat K
deriving DecidableEq

/-- The engine state relevant to the render loop: the tracked entity list. -/
structure Engine (K : Type) where
  entities : List (EngineEntity K)

/-- src/unnamed/part_001 lines 46-62: one `render()` frame.  `stepW` is the
external cannon.js `World.step`, advancing the rigid-body poses given
(fixed timestep, measured delta, max sub-steps); the returned trace records
every collaborator call in program order. -/
def Engine.render (stepW : K → K → Nat → List (Vec3 K × Quat K) → List (Vec3 K × Quat K))
    (deltaTime : K) (s : Engine K) : Engine K × List (EngineAction K) :=
  let newBodies := stepW (1 / 60) deltaTime 10
    (s.entities.map (fun e => (e.bodyPosition, e.bodyQuaternion)))
  let stepped := (s.entities.zip newBodies).map
    (fun p => { p.1 with bodyPosition := p.2.1, bodyQuaternion := p.2.2 })
  let synced := stepped.map
    (fun e => { e with meshPosition := e.bodyPosition, meshQuaternion := e.bodyQuaternion })
  (⟨synced⟩,
    EngineAction.physicsStep (1 / 60) deltaTime 10 ::
      ((List.range s.entities.length).map EngineAction.syncEntity ++
        [EngineAction.cameraUpdate, EngineAction.renderCall, EngineAction.requestFrame]))

/-! ### Concrete instances used by the witnesses -/

/-- A concrete instantiation of the external three.js operations over `ℚ`,
used only to instantiate universally quantified theorems in witnesses. -/
def extQ : Ext ℚ where
  piK := 4
  powK := fun a _ => a
  tanK := fun _ => 1
  sqrtK := fun _ => 1
  lengthV := fun _ => 1
  sphericalFromOffset := fun v => ⟨v.x, v.y, v.z⟩
  offsetFromSpherical := fun s => ⟨s.radius, s.theta, s.phi⟩
  lookAtQuat := fun _ _ => ⟨0, 0, 0, 1⟩
  matrixCol := fun _ => ⟨1, 0, 0⟩

/-- A concrete controller over `ℚ` mirroring the source field initializers
(lines 40-142; the `Infinity` bounds are replaced by finite stand-ins so the
clamping hypotheses of the theorems can be instantiated). -/
def baseQ : OC ℚ where
  enabled := true
  target := ⟨0, 0, 0⟩
  minDistance := 0
  maxDistance := 1000
  minZoom := 0
  maxZoom := 1000
  minPolarAngle := 0
  maxPolarAngle := 3 / 2
  minAzimuthAngle := -10
  maxAzimuthAngle := 10
  enableDamping := false
  dampingFactor := 1 / 20
  enableZoom := true
  zoomSpeed := 1
  enableRotate := true
  rotateSpeed := 1
  enablePan := true
  panSpeed := 1
  screenSpacePanning := false
  keyPanSpeed := 7
  autoRotate := false
  autoRotateSpeed := 2
  enableKeys := true
  keysLEFT := 37
  keysUP := 38
  keysRIGHT := 39
  keysBOTTOM := 40
  mouseButtonLeft := 0
  mouseButtonMiddle := 1
  mouseButtonRight := 2
  touchesOne := 0
  touchesTwo := 2
  target0 := ⟨0, 0, 0⟩
  position0 := ⟨0, 0, 10⟩
  zoom0 := 1
  state := -1
  spherical := ⟨1, 0, 0⟩
  sphericalDelta := ⟨1, 0, 0⟩
  scale := 1
  panOffset := ⟨0, 0, 0⟩
  zoomChanged := false
  rotateStart := ⟨0, 0⟩
  rotateEnd := ⟨0, 0⟩
  rotateDelta := ⟨0, 0⟩
  panStart := ⟨0, 0⟩
  panEnd := ⟨0, 0⟩
  panDelta := ⟨0, 0⟩
  dollyStart := ⟨0, 0⟩
  dollyEnd := ⟨0, 0⟩
  dollyDelta := ⟨0, 0⟩
  lastPosition := ⟨0, 0, 0⟩
  lastQuaternion := ⟨0, 0, 0, 1⟩
  camera := CameraKind.perspective 75
  cameraPosition := ⟨0, 0, 10⟩
  cameraQuaternion := ⟨0, 0, 0, 1⟩
  cameraZoom := 1
  cameraUp := ⟨0, 1, 0⟩
  clientWidth := 800
  clientHeight := 800
  events := []
  warnings := 0

/-- A controller with a pending pan offset (as left behind by a pan interaction
whose `update` has not yet consumed it, or by damping decay in progress). -/
def pendingPanQ : OC ℚ := { baseQ with panOffset := ⟨1, 0, 0⟩ }

/-- A controller whose camera object carries neither projection tag. -/
def unknownCamQ : OC ℚ := { baseQ with camera := CameraKind.unknown }

/-- A controller driving an orthographic camera. -/
def orthoQ : OC ℚ := { baseQ with camera := CameraKind.orthographic (-1) 1 1 (-1) }

/-- A controller with damping enabled and pending rotation deltas. -/
def dampQ : OC ℚ := { baseQ with enableDamping := true, sphericalDelta := ⟨1, 1 / 2, 1 / 3⟩ }

/-- A concrete entity over `ℚ` whose mesh and body poses differ. -/
def entQ : EngineEntity ℚ where
  meshPosition := ⟨0, 0, 0⟩
  meshQuaternion := ⟨0, 0, 0, 1⟩
  bodyPosition := ⟨1, 2, 3⟩
  bodyQuaternion := ⟨0, 1, 0, 0⟩

/-- A concrete engine over `ℚ` tracking one entity. -/
def engQ : Engine ℚ := ⟨[entQ]⟩

/-! ## Lemmas: field preservation across handlers -/

theorem dispatchEvent_state (e : Evt) (c : OC K) : (dispatchEvent e c).state = c.state := rfl

theorem dispatchEvent_enabled (e : Evt) (c : OC K) :
    (dispatchEvent e c).enabled = c.enabled := rfl

theorem update_fst_state (ext : Ext K) (c : OC K) : ((update ext c).1).state = c.state := by
  unfold update; split <;> rfl

theorem update_fst_enabled (ext : Ext K) (c : OC K) :
    ((update ext c).1).enabled = c.enabled := by
  unfold update; split <;> rfl

theorem pan_state (ext : Ext K) (dx dy : K) (c : OC K) : (pan ext dx dy c).state = c.state := by
  cases hc : c.camera <;> simp [pan, hc, panUp, panLeft]

theorem pan_enabled (ext : Ext K) (dx dy : K) (c : OC K) :
    (pan ext dx dy c).enabled = c.enabled := by
  cases hc : c.camera <;> simp [pan, hc, panUp, panLeft]

theorem dollyIn_state (s : K) (c : OC K) : (dollyIn s c).state = c.state := by
  cases hc : c.camera <;> simp [dollyIn, hc]

theorem dollyIn_enabled (s : K) (c : OC K) : (dollyIn s c).enabled = c.enabled := by
  cases hc : c.camera <;> simp [dollyIn, hc]

theorem dollyOut_state (s : K) (c : OC K) : (dollyOut s c).state = c.state := by
  cases hc : c.camera <;> simp [dollyOut, hc]

theorem dollyOut_enabled (s : K) (c : OC K) : (dollyOut s c).enabled = c.enabled := by
  cases hc : c.camera <;> simp [dollyOut, hc]

theorem handleMouseMoveRotate_state (ext : Ext K) (x y : K) (c : OC K) :
    (handleMouseMoveRotate ext x y c).state = c.state := by
  simp [handleMouseMoveRotate, update_fst_state, rotateLeft, rotateUp]

theorem handleMouseMoveRotate_enabled (ext : Ext K) (x y : K) (c : OC K) :
    (handleMouseMoveRotate ext x y c).enabled = c.enabled := by
  simp [handleMouseMoveRotate, update_fst_enabled, rotateLeft, rotateUp]

theorem handleMouseMoveDolly_state (ext : Ext K) (x y : K) (c : OC K) :
    (handleMouseMoveDolly ext x y c).state = c.state := by
  simp only [handleMouseMoveDolly, update_fst_state]
  split_ifs <;> simp [dollyIn_state, dollyOut_state]

theorem handleMouseMoveDolly_enabled (ext : Ext K) (x y : K) (c : OC K) :
    (handleMouseMoveDolly ext x y c).enabled = c.enabled := by
  simp only [handleMouseMoveDolly, update_fst_enabled]
  split_ifs <;> simp [dollyIn_enabled, dollyOut_enabled]

theorem handleMouseMovePan_state (ext : Ext K) (x y : K) (c : OC K) :
    (handleMouseMovePan ext x y c).state = c.state := by
  simp [handleMouseMovePan, update_fst_state, pan_state]

theorem handleMouseMovePan_enabled (ext : Ext K) (x y : K) (c : OC K) :
    (handleMouseMovePan ext x y c).enabled = c.enabled := by
  simp [handleMouseMovePan, update_fst_enabled, pan_enabled]

theorem handleMouseWheel_state (ext : Ext K) (d : K) (c : OC K) :
    (handleMouseWheel ext d c).state = c.state := by
  simp only [handleMouseWheel, wheelDollyStep, update_fst_state]
  split_ifs <;> simp [dollyIn_state, dollyOut_state]

theorem handleMouseWheel_enabled (ext : Ext K) (d : K) (c : OC K) :
    (handleMouseWheel ext d c).enabled = c.enabled := by
  simp only [handleMouseWheel, wheelDollyStep, update_fst_enabled]
  split_ifs <;> simp [dollyIn_enabled, dollyOut_enabled]

theorem handleKeyDown_state (ext : Ext K) (k : Nat) (c : OC K) :
    (handleKeyDown ext k c).state = c.state := by
  unfold handleKeyDown
  split_ifs <;> simp [update_fst_state, pan_state]

theorem handleKeyDown_enabled (ext : Ext K) (k : Nat) (c : OC K) :
    (handleKeyDown ext k c).enabled = c.enabled := by
  unfold handleKeyDown
  split_ifs <;> simp [update_fst_enabled, pan_enabled]

theorem handleTouchMoveRotate_state (ext : Ext K) (ts : List (Vec2 K)) (c : OC K) :
    (handleTouchMoveRotate ext ts c).state = c.state := by
  simp [handleTouchMoveRotate, rotateLeft, rotateUp]

theorem handleTouchMoveRotate_enabled (ext : Ext K) (ts : List (Vec2 K)) (c : OC K) :
    (handleTouchMoveRotate ext ts c).enabled = c.enabled := by
  simp [handleTouchMoveRotate, rotateLeft, rotateUp]

theorem handleTouchMovePan_state (ext : Ext K) (ts : List (Vec2 K)) (c : OC K) :
    (handleTouchMovePan ext ts c).state = c.state := by
  simp [handleTouchMovePan, pan_state]

theorem handleTouchMovePan_enabled (ext : Ext K) (ts : List (Vec2 K)) (c : OC K) :
    (handleTouchMovePan ext ts c).enabled = c.enabled := by
  simp [handleTouchMovePan, pan_enabled]

theorem handleTouchMoveDolly_state (ext : Ext K) (ts : List (Vec2 K)) (c : OC K) :
    (handleTouchMoveDolly ext ts c).state = c.state := by
  simp [handleTouchMoveDolly, dollyIn_state]

theorem handleTouchMoveDolly_enabled (ext : Ext K) (ts : List (Vec2 K)) (c : OC K) :
    (handleTouchMoveDolly ext ts c).enabled = c.enabled := by
  simp [handleTouchMoveDolly, dollyIn_enabled]

theorem handleTouchMoveDollyPan_state (ext : Ext K) (ts : List (Vec2 K)) (c : OC K) :
    (handleTouchMoveDollyPan ext ts c).state = c.state := by
  simp only [handleTouchMoveDollyPan]
  split_ifs <;>
    simp [handleTouchMoveDolly_state, handleTouchMovePan_state]

theorem handleTouchMoveDollyPan_enabled (ext : Ext K) (ts : List (Vec2 K)) (c : OC K) :
    (handleTouchMoveDollyPan ext ts c).enabled = c.enabled := by
  simp only [handleTouchMoveDollyPan]
  split_ifs <;>
    simp [handleTouchMoveDolly_enabled, handleTouchMovePan_enabled]

theorem handleTouchMoveDollyRotate_state (ext : Ext K) (ts : List (Vec2 K)) (c : OC K) :
    (handleTouchMoveDollyRotate ext ts c).state = c.state := by
  simp only [handleTouchMoveDollyRotate]
  split_ifs <;>
    simp [handleTouchMoveDolly_state, handleTouchMoveRotate_state]

theorem handleTouchMoveDollyRotate_enabled (ext : Ext K) (ts : List (Vec2 K)) (c : OC K) :
    (handleTouchMoveDollyRotate ext ts c).enabled = c.enabled := by
  simp only [handleTouchMoveDollyRotate]
  split_ifs <;>
    simp [handleTouchMoveDolly_enabled, handleTouchMoveRotate_enabled]

/-! ## Lemmas: the interaction-state FSM -/

theorem startDispatch_state (r : OC K × Bool) : (startDispatch r).state = r.1.state := by
  unfold startDispatch
  split_ifs <;> simp [dispatchEvent_state]

theorem startDispatch_enabled (r : OC K × Bool) : (startDispatch r).enabled = r.1.enabled := by
  unfold startDispatch
  split_ifs <;> simp [dispatchEvent_enabled]

theorem mouseDownAction_valid (a : Int) (m : Bool) (x y : K) (c : OC K) :
    validState (mouseDownAction a m x y c).1.state ∨ (mouseDownAction a m x y c).1 = c := by
  unfold mouseDownAction
  split_ifs <;>
    simp [handleMouseDownPan, handleMouseDownRotate, handleMouseDownDolly, validState,
      STATE_NONE, STATE_ROTATE, STATE_DOLLY, STATE_PAN, STATE_TOUCH_ROTATE,
      STATE_TOUCH_PAN, STATE_TOUCH_DOLLY_PAN, STATE_TOUCH_DOLLY_ROTATE]

theorem mouseDownAction_fst_enabled (a : Int) (m : Bool) (x y : K) (c : OC K) :
    (mouseDownAction a m x y c).1.enabled = c.enabled := by
  unfold mouseDownAction
  split_ifs <;> simp [handleMouseDownPan, handleMouseDownRotate, handleMouseDownDolly]

theorem mouseDownActionRight_valid (a : Int) (m : Bool) (x y : K) (c : OC K) :
    validState (mouseDownActionRight a m x y c).1.state ∨
      (mouseDownActionRight a m x y c).1 = c := by
  unfold mouseDownActionRight
  split_ifs <;>
    simp [handleMouseDownPan, handleMouseDownRotate, handleMouseDownDolly, validState,
      STATE_NONE, STATE_ROTATE, STATE_DOLLY, STATE_PAN, STATE_TOUCH_ROTATE,
      STATE_TOUCH_PAN, STATE_TOUCH_DOLLY_PAN, STATE_TOUCH_DOLLY_ROTATE]

theorem mouseDownActionRight_fst_enabled (a : Int) (m : Bool) (x y : K) (c : OC K) :
    (mouseDownActionRight a m x y c).1.enabled = c.enabled := by
  unfold mouseDownActionRight
  split_ifs <;> simp [handleMouseDownPan, handleMouseDownRotate, handleMouseDownDolly]

theorem onMouseDown_state (b : Nat) (m : Bool) (x y : K) (c : OC K) :
    (onMouseDown b m x y c).state = c.state ∨ validState (onMouseDown b m x y c).state := by
  unfold onMouseDown
  by_cases h1 : c.enabled = false
  · rw [if_pos h1]; exact Or.inl rfl
  rw [if_neg h1, startDispatch_state]
  split_ifs
  · rcases mouseDownAction_valid c.mouseButtonLeft m x y c with h | h
    · exact Or.inr h
    · exact Or.inl (by rw [h])
  · rcases mouseDownAction_valid c.mouseButtonMiddle m x y c with h | h
    · exact Or.inr h
    · exact Or.inl (by rw [h])
  · rcases mouseDownActionRight_valid c.mouseButtonRight m x y c with h | h
    · exact Or.inr h
    · exact Or.inl (by rw [h])
  · exact Or.inl rfl

theorem onMouseDown_enabled (b : Nat) (m : Bool) (x y : K) (c : OC K) :
    (onMouseDown b m x y c).enabled = c.enabled := by
  unfold onMouseDown
  by_cases h1 : c.enabled = false
  · rw [if_pos h1]
  rw [if_neg h1, startDispatch_enabled]
  split_ifs
  · exact mouseDownAction_fst_enabled _ m x y c
  · exact mouseDownAction_fst_enabled _ m x y c
  · exact mouseDownActionRight_fst_enabled _ m x y c
  · rfl

theorem onMouseMove_state (ext : Ext K) (x y : K) (c : OC K) :
    (onMouseMove ext x y c).state = c.state := by
  unfold onMouseMove
  split_ifs <;>
    simp [handleMouseMoveRotate_state, handleMouseMoveDolly_state, handleMouseMovePan_state]

theorem onMouseMove_enabled (ext : Ext K) (x y : K) (c : OC K) :
    (onMouseMove ext x y c).enabled = c.enabled := by
  unfold onMouseMove
  split_ifs <;>
    simp [handleMouseMoveRotate_enabled, handleMouseMoveDolly_enabled, handleMouseMovePan_enabled]

theorem onMouseUp_state (c : OC K) :
    (onMouseUp c).state = c.state ∨ (onMouseUp c).state = STATE_NONE := by
  unfold onMouseUp
  split_ifs <;> simp [dispatchEvent]

theorem onMouseUp_state_of_enabled (c : OC K) (h : c.enabled = true) :
    (onMouseUp c).state = STATE_NONE := by
  simp [onMouseUp, h]

theorem onMouseUp_enabled (c : OC K) : (onMouseUp c).enabled = c.enabled := by
  unfold onMouseUp
  split_ifs <;> simp [dispatchEvent]

theorem onMouseWheel_state (ext : Ext K) (d : K) (c : OC K) :
    (onMouseWheel ext d c).state = c.state := by
  unfold onMouseWheel
  split_ifs <;> simp [dispatchEvent, handleMouseWheel_state, dispatchEvent_state]

theorem onMouseWheel_enabled (ext : Ext K) (d : K) (c : OC K) :
    (onMouseWheel ext d c).enabled = c.enabled := by
  unfold onMouseWheel
  split_ifs <;> simp [dispatchEvent, handleMouseWheel_enabled, dispatchEvent_enabled]

theorem onKeyDown_state (ext : Ext K) (k : Nat) (c : OC K) :
    (onKeyDown ext k c).state = c.state := by
  unfold onKeyDown
  split_ifs <;> simp [handleKeyDown_state]

theorem onKeyDown_enabled (ext : Ext K) (k : Nat) (c : OC K) :
    (onKeyDown ext k c).enabled = c.enabled := by
  unfold onKeyDown
  split_ifs <;> simp [handleKeyDown_enabled]

theorem touchStartAction_early (ext : Ext K) (ts : List (Vec2 K)) (c : OC K)
    (h : (touchStartAction ext ts c).2 = true) : (touchStartAction ext ts c).1 = c := by
  unfold touchStartAction at h ⊢
  split_ifs at h ⊢ <;> simp_all

theorem touchStartAction_valid (ext : Ext K) (ts : List (Vec2 K)) (c : OC K) :
    validState (touchStartAction ext ts c).1.state ∨ (touchStartAction ext ts c).1 = c := by
  unfold touchStartAction
  split_ifs <;>
    simp [handleTouchStartRotate, handleTouchStartPan, handleTouchStartDolly,
      handleTouchStartDollyPan, handleTouchStartDollyRotate, validState,
      STATE_NONE, STATE_ROTATE, STATE_DOLLY, STATE_PAN, STATE_TOUCH_ROTATE,
      STATE_TOUCH_PAN, STATE_TOUCH_DOLLY_PAN, STATE_TOUCH_DOLLY_ROTATE]

theorem handleTouchStartDollyPan_enabled (ext : Ext K) (ts : List (Vec2 K)) (c : OC K) :
    (handleTouchStartDollyPan ext ts c).enabled = c.enabled := by
  simp only [handleTouchStartDollyPan]
  split_ifs <;>
    simp [handleTouchStartDolly, handleTouchStartPan] <;> split_ifs <;> simp

theorem handleTouchStartDollyRotate_enabled (ext : Ext K) (ts : List (Vec2 K)) (c : OC K) :
    (handleTouchStartDollyRotate ext ts c).enabled = c.enabled := by
  simp only [handleTouchStartDollyRotate]
  split_ifs <;>
    simp [handleTouchStartDolly, handleTouchStartRotate] <;> split_ifs <;> simp

theorem touchStartAction_fst_enabled (ext : Ext K) (ts : List (Vec2 K)) (c : OC K) :
    (touchStartAction ext ts c).1.enabled = c.enabled := by
  unfold touchStartAction
  split_ifs <;>
    simp_all [handleTouchStartRotate, handleTouchStartPan,
      handleTouchStartDollyPan_enabled, handleTouchStartDollyRotate_enabled]

theorem onTouchStart_state (ext : Ext K) (ts : List (Vec2 K)) (c : OC K) :
    (onTouchStart ext ts c).state = c.state ∨ validState (onTouchStart ext ts c).state := by
  unfold onTouchStart
  by_cases h1 : c.enabled = false
  · rw [if_pos h1]; exact Or.inl rfl
  rw [if_neg h1, startDispatch_state]
  rcases touchStartAction_valid ext ts c with h | h
  · exact Or.inr h
  · exact Or.inl (by rw [h])

theorem onTouchStart_enabled (ext : Ext K) (ts : List (Vec2 K)) (c : OC K) :
    (onTouchStart ext ts c).enabled = c.enabled := by
  unfold onTouchStart
  by_cases h1 : c.enabled = false
  · rw [if_pos h1]
  rw [if_neg h1, startDispatch_enabled, touchStartAction_fst_enabled]

theorem onTouchMove_state (ext : Ext K) (ts : List (Vec2 K)) (c : OC K) :
    (onTouchMove ext ts c).state = c.state ∨ (onTouchMove ext ts c).state = STATE_NONE := by
  unfold onTouchMove
  split_ifs <;>
    simp [update_fst_state, handleTouchMoveRotate_state, handleTouchMovePan_state,
      handleTouchMoveDollyPan_state, handleTouchMoveDollyRotate_state]

theorem onTouchMove_enabled (ext : Ext K) (ts : List (Vec2 K)) (c : OC K) :
    (onTouchMove ext ts c).enabled = c.enabled := by
  unfold onTouchMove
  split_ifs <;>
    simp [update_fst_enabled, handleTouchMoveRotate_enabled, handleTouchMovePan_enabled,
      handleTouchMoveDollyPan_enabled, handleTouchMoveDollyRotate_enabled]

theorem onTouchEnd_state (c : OC K) :
    (onTouchEnd c).state = c.state ∨ (onTouchEnd c).state = STATE_NONE := by
  unfold onTouchEnd
  split_ifs <;> simp [dispatchEvent]

theorem onTouchEnd_state_of_enabled (c : OC K) (h : c.enabled = true) :
    (onTouchEnd c).state = STATE_NONE := by
  simp [onTouchEnd, h]

theorem onTouchEnd_enabled (c : OC K) : (onTouchEnd c).enabled = c.enabled := by
  unfold onTouchEnd
  split_ifs <;> simp [dispatchEvent]

theorem handleEvent_enabled (ext : Ext K) (c : OC K) (e : InputEvent K) :
    (handleEvent ext c e).enabled = c.enabled := by
  cases e <;>
    simp [handleEvent, onMouseDown_enabled, onMouseMove_enabled, onMouseUp_enabled,
      onMouseWheel_enabled, onTouchStart_enabled, onTouchMove_enabled, onTouchEnd_enabled,
      onKeyDown_enabled]

theorem handleEvent_disabled (ext : Ext K) (c : OC K) (e : InputEvent K)
    (h : c.enabled = false) : handleEvent ext c e = c := by
  cases e <;>
    simp [handleEvent, onMouseDown, onMouseMove, onMouseUp, onMouseWheel, onKeyDown,
      onTouchStart, onTouchMove, onTouchEnd, h]

theorem handleEvent_valid (ext : Ext K) (c : OC K) (e : InputEvent K)
    (h : validState c.state) : validState (handleEvent ext c e).state := by
  cases e with
  | mouseDown b m x y =>
      rcases onMouseDown_state b m x y c with h' | h'
      · rw [handleEvent, h']; exact h
      · exact h'
  | mouseMove x y => rw [handleEvent, onMouseMove_state]; exact h
  | mouseUp =>
      rcases onMouseUp_state c with h' | h'
      · rw [handleEvent, h']; exact h
      · rw [handleEvent, h']; exact Or.inl rfl
  | wheel d => rw [handleEvent, onMouseWheel_state]; exact h
  | touchStart ts =>
      rcases onTouchStart_state ext ts c with h' | h'
      · rw [handleEvent, h']; exact h
      · exact h'
  | touchMove ts =>
      rcases onTouchMove_state ext ts c with h' | h'
      · rw [handleEvent, h']; exact h
      · rw [handleEvent, h']; exact Or.inl rfl
  | touchEnd =>
      rcases onTouchEnd_state c with h' | h'
      · rw [handleEvent, h']; exact h
      · rw [handleEvent, h']; exact Or.inl rfl
  | keyDown k => rw [handleEvent, onKeyDown_state]; exact h

theorem handleEvent_none (ext : Ext K) (c : OC K) (e : InputEvent K)
    (h : c.state = STATE_NONE) (he : isStart e = false) :
    (handleEvent ext c e).state = STATE_NONE := by
  cases e with
  | mouseDown b m x y => simp [isStart] at he
  | touchStart ts => simp [isStart] at he
  | mouseMove x y => rw [handleEvent, onMouseMove_state]; exact h
  | wheel d => rw [handleEvent, onMouseWheel_state]; exact h
  | keyDown k => rw [handleEvent, onKeyDown_state]; exact h
  | mouseUp =>
      rcases onMouseUp_state c with h' | h'
      · rw [handleEvent, h']; exact h
      · rw [handleEvent, h']
  | touchEnd =>
      rcases onTouchEnd_state c with h' | h'
      · rw [handleEvent, h']; exact h
      · rw [handleEvent, h']
  | touchMove ts =>
      rcases onTouchMove_state ext ts c with h' | h'
      · rw [handleEvent, h']; exact h
      · rw [handleEvent, h']

theorem runEvents_cons (ext : Ext K) (c : OC K) (e : InputEvent K) (es : List (InputEvent K)) :
    runEvents ext c (e :: es) = runEvents ext (handleEvent ext c e) es := rfl

theorem runEvents_append (ext : Ext K) (c : OC K) (es fs : List (InputEvent K)) :
    runEvents ext c (es ++ fs) = runEvents ext (runEvents ext c es) fs :=
  List.foldl_append _ _ _ _

theorem runEvents_valid (ext : Ext K) (es : List (InputEvent K)) :
    ∀ c : OC K, validState c.state → validState (runEvents ext c es).state := by
  induction es with
  | nil => intro c h; exact h
  | cons e es ih =>
      intro c h
      rw [runEvents_cons]
      exact ih _ (handleEvent_valid ext c e h)

theorem runEvents_none (ext : Ext K) (es : List (InputEvent K)) :
    ∀ c : OC K, c.state = STATE_NONE → (∀ ev ∈ es, isStart ev = false) →
      (runEvents ext c es).state = STATE_NONE := by
  induction es with
  | nil => intro c h _; exact h
  | cons e es ih =>
      intro c h hs
      rw [runEvents_cons]
      exact ih _ (handleEvent_none ext c e h (hs e (List.mem_cons_self e es)))
        (fun ev hev => hs ev (List.mem_cons_of_mem e hev))

theorem runEvents_enabled (ext : Ext K) (es : List (InputEvent K)) :
    ∀ c : OC K, (runEvents ext c es).enabled = c.enabled := by
  induction es with
  | nil => intro c; rfl
  | cons e es ih =>
      intro c
      rw [runEvents_cons, ih, handleEvent_enabled]

theorem runEvents_disabled (ext : Ext K) (es : List (InputEvent K)) :
    ∀ c : OC K, c.enabled = false → runEvents ext c es = c := by
  induction es with
  | nil => intro c _; rfl
  | cons e es ih =>
      intro c h
      rw [runEvents_cons, handleEvent_disabled ext c e h]
      exact ih c h

/-- Claim C1: for every sequence of input events delivered to an `OrbitControls`
instance that starts in the initial state (`state = NONE`, as set by the field
initializer), the interaction state is always one of the eight enumerated values,
stays `NONE` as long as no pointer-down or touch-start was delivered, and is
`NONE` immediately after every `onMouseUp` / `onTouchEnd` handler completes. -/
theorem spec_c1 (ext : Ext K) (c : OC K) (es : List (InputEvent K)) (e : InputEvent K)
    (hinit : c.state = STATE_NONE)
    (he : e = InputEvent.mouseUp ∨ e = InputEvent.touchEnd) :
    validState ((runEvents ext c es).state) ∧
    ((∀ ev ∈ es, isStart ev = false) → (runEvents ext c es).state = STATE_NONE) ∧
    (runEvents ext c (es ++ [e])).state = STATE_NONE := by
  refine ⟨runEvents_valid ext es c (by rw [hinit]; exact Or.inl rfl),
    fun hs => runEvents_none ext es c hinit hs, ?_⟩
  rw [runEvents_append]
  by_cases hen : c.enabled = false
  · rw [runEvents_disabled ext [e] _ (by rw [runEvents_enabled]; exact hen),
      runEvents_disabled ext es c hen]
    exact hinit
  · have hen' : (runEvents ext c es).enabled = true := by
      rw [runEvents_enabled]
      exact Bool.not_eq_false c.enabled |>.mp hen
    rcases he with he | he <;> subst he
    · show (handleEvent ext (runEvents ext c es) InputEvent.mouseUp).state = STATE_NONE
      rw [handleEvent]
      exact onMouseUp_state_of_enabled _ hen'
    · show (handleEvent ext (runEvents ext c es) InputEvent.touchEnd).state = STATE_NONE
      rw [handleEvent]
      exact onTouchEnd_state_of_enabled _ hen'

/-- Witness for C1 at a concrete controller and event list over `ℚ`. -/
theorem spec_c1_witness :
    baseQ.state = STATE_NONE ∧
    ((InputEvent.mouseUp : InputEvent ℚ) = InputEvent.mouseUp ∨
      (InputEvent.mouseUp : InputEvent ℚ) = InputEvent.touchEnd) ∧
    (validState ((runEvents extQ baseQ
        [InputEvent.mouseDown 0 false 5 5, InputEvent.mouseMove 6 6]).state) ∧
      ((∀ ev ∈ [InputEvent.mouseDown 0 false (5 : ℚ) 5, InputEvent.mouseMove 6 6],
          isStart ev = false) →
        (runEvents extQ baseQ
          [InputEvent.mouseDown 0 false 5 5, InputEvent.mouseMove 6 6]).state = STATE_NONE) ∧
      (runEvents extQ baseQ
        ([InputEvent.mouseDown 0 false 5 5, InputEvent.mouseMove 6 6] ++
          [InputEvent.mouseUp])).state = STATE_NONE) :=
  ⟨rfl, Or.inl rfl,
    spec_c1 extQ baseQ [InputEvent.mouseDown 0 false 5 5, InputEvent.mouseMove 6 6]
      InputEvent.mouseUp rfl (Or.inl rfl)⟩

/-! ## Lemmas: characterization of `update` -/

theorem update_fst_spherical (ext : Ext K) (c : OC K) :
    ((update ext c).1).spherical = updateSpherical ext c := by
  unfold update; split <;> rfl

theorem update_fst_sphericalDelta (ext : Ext K) (c : OC K) :
    ((update ext c).1).sphericalDelta = updateSphericalDelta ext c := by
  unfold update; split <;> rfl

theorem update_fst_panOffset (ext : Ext K) (c : OC K) :
    ((update ext c).1).panOffset = updatePanOffset c := by
  unfold update; split <;> rfl

theorem update_fst_target (ext : Ext K) (c : OC K) :
    ((update ext c).1).target = updateTarget c := by
  unfold update; split <;> rfl

theorem update_fst_cameraPosition (ext : Ext K) (c : OC K) :
    ((update ext c).1).cameraPosition = updatePosition ext c := by
  unfold update; split <;> rfl

theorem update_fst_cameraQuaternion (ext : Ext K) (c : OC K) :
    ((update ext c).1).cameraQuaternion = updateQuat ext c := by
  unfold update; split <;> rfl

theorem update_fst_cameraZoom (ext : Ext K) (c : OC K) :
    ((update ext c).1).cameraZoom = c.cameraZoom := by
  unfold update; split <;> rfl

theorem update_fst_enableDamping (ext : Ext K) (c : OC K) :
    ((update ext c).1).enableDamping = c.enableDamping := by
  unfold update; split <;> rfl

theorem update_fst_dampingFactor (ext : Ext K) (c : OC K) :
    ((update ext c).1).dampingFactor = c.dampingFactor := by
  unfold update; split <;> rfl

theorem update_fst_autoRotate (ext : Ext K) (c : OC K) :
    ((update ext c).1).autoRotate = c.autoRotate := by
  unfold update; split <;> rfl

theorem update_snd (ext : Ext K) (c : OC K) : (update ext c).2 = updateCondB ext c := by
  unfold update
  split_ifs with h
  · rw [h]
  · exact (Bool.not_eq_true _).mp h |>.symm

theorem updateCondB_iff (ext : Ext K) (c : OC K) :
    updateCondB ext c = true ↔
      (c.zoomChanged = true ∨ (EPS : K) < dist2 c.lastPosition (updatePosition ext c) ∨
        (EPS : K) < 8 * (1 - Quat.dot c.lastQuaternion (updateQuat ext c))) := by
  simp [updateCondB, Bool.or_eq_true, decide_eq_true_eq, or_assoc]

theorem update_fst_events_cases (ext : Ext K) (c : OC K) :
    ((update ext c).1).events = c.events ∨
      ((update ext c).1).events = c.events ++ [Evt.change] := by
  unfold update
  split_ifs
  · exact Or.inr rfl
  · exact Or.inl rfl

theorem makeSafeEPS_nonneg : (0 : K) ≤ makeSafeEPS := by norm_num [makeSafeEPS]

/-- Claim C2: after every `update()` call, for arbitrary accumulated deltas, the
azimuth `theta` is exactly the clamp (not a wrap) of the pre-clamp value to
`[minAzimuthAngle, maxAzimuthAngle]` and lies in that interval, and the polar
angle `phi` lies in `[minPolarAngle, maxPolarAngle] ∩ [0, π]`.  The hypotheses
`h3`, `h4` bound the configured polar interval away from the poles by the
`makeSafe` epsilon, which is exactly the pole-safety margin the claim excepts;
`h5` states the source's documented constraint that the polar limits lie in
`[0, π]` (`Math.PI` is `ext.piK`). -/
theorem spec_c2 (ext : Ext K) (c : OC K)
    (h1 : c.minAzimuthAngle ≤ c.maxAzimuthAngle)
    (h2 : c.minPolarAngle ≤ c.maxPolarAngle)
    (h3 : makeSafeEPS ≤ c.maxPolarAngle)
    (h4 : c.minPolarAngle ≤ ext.piK - makeSafeEPS)
    (h5 : c.maxPolarAngle ≤ ext.piK) :
    ((update ext c).1).spherical.theta
        = max c.minAzimuthAngle (min c.maxAzimuthAngle (updateThetaRaw ext c)) ∧
    c.minAzimuthAngle ≤ ((update ext c).1).spherical.theta ∧
    ((update ext c).1).spherical.theta ≤ c.maxAzimuthAngle ∧
    c.minPolarAngle ≤ ((update ext c).1).spherical.phi ∧
    ((update ext c).1).spherical.phi ≤ c.maxPolarAngle ∧
    (0 : K) ≤ ((update ext c).1).spherical.phi ∧
    ((update ext c).1).spherical.phi ≤ ext.piK := by
  have hθ : ((update ext c).1).spherical.theta = updateTheta ext c := by
    rw [update_fst_spherical]; rfl
  have hφ : ((update ext c).1).spherical.phi = updatePhi ext c := by
    rw [update_fst_spherical]; rfl
  rw [hθ, hφ]
  have heps : (0 : K) ≤ makeSafeEPS := makeSafeEPS_nonneg
  refine ⟨rfl, le_max_left _ _, max_le h1 (min_le_left _ _), ?_, ?_, ?_, ?_⟩
  · exact le_trans (le_min h4 (le_max_left _ _)) (le_max_right _ _)
  · exact max_le h3
      (le_trans (min_le_right _ _) (max_le h2 (min_le_left _ _)))
  · exact le_trans heps (le_max_left _ _)
  · exact max_le (le_trans h3 h5)
      (le_trans (min_le_left _ _) (by linarith))

/-- Witness for C2 at a concrete controller over `ℚ`. -/
theorem spec_c2_witness :
    (baseQ.minAzimuthAngle ≤ baseQ.maxAzimuthAngle ∧
      baseQ.minPolarAngle ≤ baseQ.maxPolarAngle ∧
      makeSafeEPS ≤ baseQ.maxPolarAngle ∧
      baseQ.minPolarAngle ≤ extQ.piK - makeSafeEPS ∧
      baseQ.maxPolarAngle ≤ extQ.piK) ∧
    (baseQ.minAzimuthAngle ≤ ((update extQ baseQ).1).spherical.theta ∧
      ((update extQ baseQ).1).spherical.theta ≤ baseQ.maxAzimuthAngle ∧
      baseQ.minPolarAngle ≤ ((update extQ baseQ).1).spherical.phi ∧
      ((update extQ baseQ).1).spherical.phi ≤ baseQ.maxPolarAngle ∧
      (0 : ℚ) ≤ ((update extQ baseQ).1).spherical.phi ∧
      ((update extQ baseQ).1).spherical.phi ≤ extQ.piK) := by
  have h1 : baseQ.minAzimuthAngle ≤ baseQ.maxAzimuthAngle := by norm_num [baseQ]
  have h2 : baseQ.minPolarAngle ≤ baseQ.maxPolarAngle := by norm_num [baseQ]
  have h3 : makeSafeEPS ≤ baseQ.maxPolarAngle := by norm_num [baseQ, makeSafeEPS]
  have h4 : baseQ.minPolarAngle ≤ extQ.piK - makeSafeEPS := by
    norm_num [baseQ, extQ, makeSafeEPS]
  have h5 : baseQ.maxPolarAngle ≤ extQ.piK := by norm_num [baseQ, extQ]
  have h := spec_c2 extQ baseQ h1 h2 h3 h4 h5
  exact ⟨⟨h1, h2, h3, h4, h5⟩, h.2⟩

/-- Claim C3: after every `update()` call on a controller driving a perspective
camera, the spherical radius (camera distance to target) lies within
`[minDistance, maxDistance]`, for any accumulated zoom scale; and on a
controller driving an orthographic camera, `camera.zoom` lies within
`[minZoom, maxZoom]` after every `dollyIn` / `dollyOut` call. -/
theorem spec_c3 (ext : Ext K) (c d : OC K) (s fov left right top bottom : K)
    (hd : c.minDistance ≤ c.maxDistance)
    (hcam : c.camera = CameraKind.perspective fov)
    (hz : d.minZoom ≤ d.maxZoom)
    (hdcam : d.camera = CameraKind.orthographic left right top bottom) :
    (c.minDistance ≤ ((update ext c).1).spherical.radius ∧
      ((update ext c).1).spherical.radius ≤ c.maxDistance) ∧
    (d.minZoom ≤ (dollyIn s d).cameraZoom ∧ (dollyIn s d).cameraZoom ≤ d.maxZoom) ∧
    (d.minZoom ≤ (dollyOut s d).cameraZoom ∧ (dollyOut s d).cameraZoom ≤ d.maxZoom) := by
  have hr : ((update ext c).1).spherical.radius = updateRadius ext c := by
    rw [update_fst_spherical]; rfl
  have hin : (dollyIn s d).cameraZoom = max d.minZoom (min d.maxZoom (d.cameraZoom * s)) := by
    simp [dollyIn, hdcam]
  have hout : (dollyOut s d).cameraZoom = max d.minZoom (min d.maxZoom (d.cameraZoom / s)) := by
    simp [dollyOut, hdcam]
  rw [hr, hin, hout]
  exact ⟨⟨le_max_left _ _, max_le hd (min_le_left _ _)⟩,
    ⟨le_max_left _ _, max_le hz (min_le_left _ _)⟩,
    ⟨le_max_left _ _, max_le hz (min_le_left _ _)⟩⟩

/-- Witness for C3 at a perspective controller (radius half) and an orthographic
controller (zoom half) over `ℚ`. -/
theorem spec_c3_witness :
    (baseQ.minDistance ≤ baseQ.maxDistance ∧
      baseQ.camera = CameraKind.perspective 75 ∧
      orthoQ.minZoom ≤ orthoQ.maxZoom ∧
      orthoQ.camera = CameraKind.orthographic (-1) 1 1 (-1)) ∧
    ((baseQ.minDistance ≤ ((update extQ baseQ).1).spherical.radius ∧
      ((update extQ baseQ).1).spherical.radius ≤ baseQ.maxDistance) ∧
      (orthoQ.minZoom ≤ (dollyIn (1 / 2) orthoQ).cameraZoom ∧
        (dollyIn (1 / 2) orthoQ).cameraZoom ≤ orthoQ.maxZoom)) := by
  have h := spec_c3 extQ baseQ orthoQ (1 / 2) 75 (-1) 1 1 (-1)
    (by norm_num [baseQ]) rfl (by norm_num [orthoQ, baseQ]) rfl
  exact ⟨⟨by norm_num [baseQ], rfl, by norm_num [orthoQ, baseQ], rfl⟩, h.1, h.2.1⟩

theorem autoRotatedDelta_of_not (ext : Ext K) (c : OC K) (hA : c.autoRotate = false) :
    autoRotatedDelta ext c = c.sphericalDelta := by
  simp [autoRotatedDelta, hA]

theorem update_delta_damped (ext : Ext K) (c : OC K)
    (hA : c.autoRotate = false) (hD : c.enableDamping = true) :
    ((update ext c).1).sphericalDelta.theta = c.sphericalDelta.theta * (1 - c.dampingFactor) ∧
    ((update ext c).1).sphericalDelta.phi = c.sphericalDelta.phi * (1 - c.dampingFactor) := by
  rw [update_fst_sphericalDelta]
  simp [updateSphericalDelta, hD, autoRotatedDelta_of_not ext c hA]

theorem iter_update_theta (ext : Ext K) :
    ∀ (m : ℕ) (c : OC K), c.autoRotate = false → c.enableDamping = true →
      ((fun x : OC K => (update ext x).1)^[m] c).sphericalDelta.theta
        = c.sphericalDelta.theta * (1 - c.dampingFactor) ^ m := by
  intro m
  induction m with
  | zero => intro c _ _; simp
  | succ m ih =>
      intro c hA hD
      rw [Function.iterate_succ_apply]
      rw [ih _ (by rw [update_fst_autoRotate]; exact hA)
        (by rw [update_fst_enableDamping]; exact hD)]
      rw [(update_delta_damped ext c hA hD).1, update_fst_dampingFactor]
      ring

/-- Claim C4: for every pre-update accumulator value (`hA` excludes the concurrent
auto-rotate injection, which the spec covers separately): with damping off, one
`update()` zeroes the rotation and pan accumulators exactly; with damping on, one
`update()` multiplies the rotation components and the pan offset by exactly
`1 - dampingFactor`, so for `0 < dampingFactor < 1` a nonzero accumulator stays
nonzero after any finite number of `update()` calls. -/
theorem spec_c4 (ext : Ext K) (c : OC K) (n : ℕ) (hA : c.autoRotate = false) :
    (c.enableDamping = false →
      ((update ext c).1).sphericalDelta = (⟨0, 0, 0⟩ : Spherical K) ∧
      ((update ext c).1).panOffset = (⟨0, 0, 0⟩ : Vec3 K)) ∧
    (c.enableDamping = true →
      ((update ext c).1).sphericalDelta.theta
          = c.sphericalDelta.theta * (1 - c.dampingFactor) ∧
      ((update ext c).1).sphericalDelta.phi
          = c.sphericalDelta.phi * (1 - c.dampingFactor) ∧
      ((update ext c).1).panOffset = Vec3.smul (1 - c.dampingFactor) c.panOffset ∧
      (0 < c.dampingFactor → c.dampingFactor < 1 → c.sphericalDelta.theta ≠ 0 →
        ((fun x : OC K => (update ext x).1)^[n] c).sphericalDelta.theta ≠ 0)) := by
  constructor
  · intro hD
    rw [update_fst_sphericalDelta, update_fst_panOffset]
    simp [updateSphericalDelta, updatePanOffset, hD]
  · intro hD
    obtain ⟨ht, hp⟩ := update_delta_damped ext c hA hD
    refine ⟨ht, hp, ?_, ?_⟩
    · rw [update_fst_panOffset]; simp [updatePanOffset, hD]
    · intro hf0 hf1 hne
      rw [iter_update_theta ext n c hA hD]
      have hpos : (0 : K) < 1 - c.dampingFactor := by linarith
      exact mul_ne_zero hne (pow_ne_zero _ (ne_of_gt hpos))

/-- Witness for C4 at a damped controller over `ℚ` with three iterated updates. -/
theorem spec_c4_witness :
    dampQ.autoRotate = false ∧
    (dampQ.enableDamping = false →
      ((update extQ dampQ).1).sphericalDelta = (⟨0, 0, 0⟩ : Spherical ℚ) ∧
      ((update extQ dampQ).1).panOffset = (⟨0, 0, 0⟩ : Vec3 ℚ)) ∧
    (dampQ.enableDamping = true →
      ((update extQ dampQ).1).sphericalDelta.theta
          = dampQ.sphericalDelta.theta * (1 - dampQ.dampingFactor) ∧
      ((update extQ dampQ).1).sphericalDelta.phi
          = dampQ.sphericalDelta.phi * (1 - dampQ.dampingFactor) ∧
      ((update extQ dampQ).1).panOffset = Vec3.smul (1 - dampQ.dampingFactor) dampQ.panOffset ∧
      (0 < dampQ.dampingFactor → dampQ.dampingFactor < 1 → dampQ.sphericalDelta.theta ≠ 0 →
        ((fun x : OC ℚ => (update extQ x).1)^[3] dampQ).sphericalDelta.theta ≠ 0)) :=
  ⟨rfl, (spec_c4 extQ dampQ 3 rfl).1, (spec_c4 extQ dampQ 3 rfl).2⟩

/-- Claim C5: `update()` dispatches a `change` event (and returns `true`) exactly
when `zoomChanged` is set, or the squared distance from the last recorded position
to the camera's end-of-update position exceeds `EPS`, or
`8 * (1 - lastQuaternion . quaternion)` exceeds `EPS`; in exactly that case it
refreshes `lastPosition` / `lastQuaternion` and clears `zoomChanged`, and
otherwise leaves them unchanged and dispatches nothing. -/
theorem spec_c5 (ext : Ext K) (c : OC K) :
    ((update ext c).2 = true ↔
      (c.zoomChanged = true ∨
        (EPS : K) < dist2 c.lastPosition ((update ext c).1).cameraPosition ∨
        (EPS : K) < 8 * (1 - Quat.dot c.lastQuaternion ((update ext c).1).cameraQuaternion))) ∧
    ((update ext c).2 = true →
      ((update ext c).1).events = c.events ++ [Evt.change] ∧
      ((update ext c).1).lastPosition = ((update ext c).1).cameraPosition ∧
      ((update ext c).1).lastQuaternion = ((update ext c).1).cameraQuaternion ∧
      ((update ext c).1).zoomChanged = false) ∧
    ((update ext c).2 = false →
      ((update ext c).1).events = c.events ∧
      ((update ext c).1).lastPosition = c.lastPosition ∧
      ((update ext c).1).lastQuaternion = c.lastQuaternion ∧
      ((update ext c).1).zoomChanged = c.zoomChanged) := by
  rw [update_fst_cameraPosition, update_fst_cameraQuaternion]
  refine ⟨?_, ?_, ?_⟩
  · rw [update_snd]; exact updateCondB_iff ext c
  · intro h
    rw [update_snd] at h
    unfold update
    rw [if_pos h]
    exact ⟨rfl, rfl, rfl, rfl⟩
  · intro h
    rw [update_snd] at h
    unfold update
    rw [if_neg (by simp [h])]
    exact ⟨rfl, rfl, rfl, rfl⟩

/-- Counterexample for C6 as stated: the azimuth delta injected by auto-rotation,
viewed as a function of the elapsed frame time, is the constant
`2π/60/60 * autoRotateSpeed` per `update()` call — it is not proportional to any
measured elapsed time (no rate `k` satisfies `injected = k * dt` for all `dt`). -/
theorem spec_c6_cex :
    ¬ ∃ k : ℚ, ∀ dt : ℚ, getAutoRotationAngle extQ baseQ = k * dt := by
  rintro ⟨k, hk⟩
  have h1 := hk 1
  have h2 := hk 2
  simp only [getAutoRotationAngle] at h1 h2
  norm_num [extQ, baseQ] at h1 h2
  linarith

/-- Claim C6 (amended): when `autoRotate` is enabled and the state is `NONE`, each
`update()` call injects the fixed azimuth delta `2π/60/60 * autoRotateSpeed` into
the rotation accumulator before the damped decay (a constant per call, assuming a
nominal 60 fps — not scaled by the measured frame time); no delta is injected
while an interaction is active or auto-rotate is off.  Stated with damping on so
the accumulator is observable after the call. -/
theorem spec_c6 (ext : Ext K) (c : OC K) (hD : c.enableDamping = true) :
    (c.autoRotate = true ∧ c.state = STATE_NONE →
      ((update ext c).1).sphericalDelta.theta
        = (c.sphericalDelta.theta - 2 * ext.piK / 60 / 60 * c.autoRotateSpeed)
            * (1 - c.dampingFactor)) ∧
    (¬(c.autoRotate = true ∧ c.state = STATE_NONE) →
      ((update ext c).1).sphericalDelta.theta
        = c.sphericalDelta.theta * (1 - c.dampingFactor)) := by
  constructor <;> intro h <;>
    (rw [update_fst_sphericalDelta]
     simp [updateSphericalDelta, hD, autoRotatedDelta, h, rotateLeft, getAutoRotationAngle])

/-- Witness for C6 at a damped controller over `ℚ`. -/
theorem spec_c6_witness :
    dampQ.enableDamping = true ∧
    ((dampQ.autoRotate = true ∧ dampQ.state = STATE_NONE →
      ((update extQ dampQ).1).sphericalDelta.theta
        = (dampQ.sphericalDelta.theta - 2 * extQ.piK / 60 / 60 * dampQ.autoRotateSpeed)
            * (1 - dampQ.dampingFactor)) ∧
    (¬(dampQ.autoRotate = true ∧ dampQ.state = STATE_NONE) →
      ((update extQ dampQ).1).sphericalDelta.theta
        = dampQ.sphericalDelta.theta * (1 - dampQ.dampingFactor))) :=
  ⟨rfl, spec_c6 extQ dampQ rfl⟩

/-- Claim C7: for a perspective camera with `zoomSpeed = 1` and no pending scale,
a wheel event with `deltaY = 120` runs the dolly-in branch, setting the pending
scale to `1/0.95 = 20/19`; the `update()` that `handleMouseWheel` then performs
multiplies the recomputed spherical radius by that scale and clamps it to
`[minDistance, maxDistance]`.  (`hpow` pins down the external `Math.pow` at the
only point used, `0.95^1`.) -/
theorem spec_c7 (ext : Ext K) (c : OC K) (fov : K)
    (hcam : c.camera = CameraKind.perspective fov)
    (hscale : c.scale = 1) (hzs : c.zoomSpeed = 1)
    (hpow : ext.powK (95 / 100) 1 = 95 / 100) :
    (wheelDollyStep ext 120 c).scale = 20 / 19 ∧
    (handleMouseWheel ext 120 c).spherical.radius
      = max c.minDistance (min c.maxDistance
          ((ext.sphericalFromOffset (c.cameraPosition.sub c.target)).radius * (20 / 19))) := by
  have hg : getZoomScale ext c = 95 / 100 := by rw [getZoomScale, hzs, hpow]
  have hws : wheelDollyStep ext 120 c = { c with scale := 20 / 19 } := by
    rw [wheelDollyStep, if_neg (by norm_num), if_pos (by norm_num)]
    simp [dollyIn, hcam, hg, hscale]
    norm_num
  constructor
  · rw [hws]
  · rw [handleMouseWheel, hws]
    have hru : ((update ext ({ c with scale := (20 : K) / 19 } : OC K)).1).spherical.radius
        = updateRadius ext { c with scale := (20 : K) / 19 } := by
      rw [update_fst_spherical]; rfl
    rw [hru]
    simp [updateRadius, sphIn]

/-- Witness for C7 at the default controller over `ℚ`. -/
theorem spec_c7_witness :
    (baseQ.camera = CameraKind.perspective 75 ∧ baseQ.scale = 1 ∧ baseQ.zoomSpeed = 1 ∧
      extQ.powK (95 / 100) 1 = 95 / 100) ∧
    ((wheelDollyStep extQ 120 baseQ).scale = 20 / 19 ∧
      (handleMouseWheel extQ 120 baseQ).spherical.radius
        = max baseQ.minDistance (min baseQ.maxDistance
            ((extQ.sphericalFromOffset (baseQ.cameraPosition.sub baseQ.target)).radius
              * (20 / 19)))) :=
  ⟨⟨rfl, rfl, rfl, rfl⟩, spec_c7 extQ baseQ 75 rfl rfl rfl rfl⟩

/-- Claim C8: `pan` and `dollyIn` / `dollyOut` on a camera that is neither
perspective nor orthographic do not raise an error: `pan` clears `enablePan`
(permanently disabling panning) and logs a warning; `dollyIn` / `dollyOut` clear
`enableZoom` and log a warning; in each case every other controller field is left
unchanged (the equalities below are full-state equalities). -/
theorem spec_c8 (ext : Ext K) (c : OC K) (dx dy s : K)
    (hcam : c.camera = CameraKind.unknown) :
    pan ext dx dy c = { c with enablePan := false, warnings := c.warnings + 1 } ∧
    dollyIn s c = { c with enableZoom := false, warnings := c.warnings + 1 } ∧
    dollyOut s c = { c with enableZoom := false, warnings := c.warnings + 1 } := by
  refine ⟨?_, ?_, ?_⟩ <;> simp [pan, dollyIn, dollyOut, hcam]

/-- Witness for C8 at a controller with an unrecognized camera over `ℚ`. -/
theorem spec_c8_witness :
    unknownCamQ.camera = CameraKind.unknown ∧
    (pan extQ 1 2 unknownCamQ
        = { unknownCamQ with enablePan := false, warnings := unknownCamQ.warnings + 1 } ∧
      dollyIn 3 unknownCamQ
        = { unknownCamQ with enableZoom := false, warnings := unknownCamQ.warnings + 1 } ∧
      dollyOut 3 unknownCamQ
        = { unknownCamQ with enableZoom := false, warnings := unknownCamQ.warnings + 1 }) :=
  ⟨rfl, spec_c8 extQ unknownCamQ 1 2 3 rfl⟩

/-- Claim C9: one `Engine.render` frame performs, in strict order with nothing in
between: the physics step with fixed sub-step `1/60`, the measured clock delta as
target time and at most `10` sub-steps; then one mesh synchronization per tracked
entity, copying the rigid body's position and quaternion verbatim onto the mesh;
then the camera controller update; then exactly one renderer call; then the
next-frame request (the trace equality fixes the exact sequence). -/
theorem spec_c9 (stepW : K → K → Nat → List (Vec3 K × Quat K) → List (Vec3 K × Quat K))
    (dt : K) (s : Engine K)
    (hlen : ∀ l : List (Vec3 K × Quat K), (stepW (1 / 60) dt 10 l).length = l.length) :
    (Engine.render stepW dt s).2
      = EngineAction.physicsStep (1 / 60) dt 10 ::
          ((List.range s.entities.length).map EngineAction.syncEntity ++
            [EngineAction.cameraUpdate, EngineAction.renderCall,
              EngineAction.requestFrame]) ∧
    (∀ e ∈ (Engine.render stepW dt s).1.entities,
        e.meshPosition = e.bodyPosition ∧ e.meshQuaternion = e.bodyQuaternion) ∧
    (Engine.render stepW dt s).1.entities.length = s.entities.length := by
  refine ⟨rfl, ?_, ?_⟩
  · intro e he
    simp only [Engine.render, List.mem_map] at he
    obtain ⟨a, ha, rfl⟩ := he
    exact ⟨rfl, rfl⟩
  · have h := hlen (s.entities.map (fun e => (e.bodyPosition, e.bodyQuaternion)))
    simp only [Engine.render, List.length_map, List.length_zip, h, min_self]

/-- Witness for C9 at a one-entity engine over `ℚ` with an identity physics step. -/
theorem spec_c9_witness :
    (∀ l : List (Vec3 ℚ × Quat ℚ),
      ((fun _ _ _ l => l : ℚ → ℚ → Nat → List (Vec3 ℚ × Quat ℚ) → List (Vec3 ℚ × Quat ℚ))
        (1 / 60) 1 10 l).length = l.length) ∧
    ((Engine.render (fun _ _ _ l => l) 1 engQ).2
      = EngineAction.physicsStep (1 / 60) 1 10 ::
          ((List.range engQ.entities.length).map EngineAction.syncEntity ++
            [EngineAction.cameraUpdate, EngineAction.renderCall,
              EngineAction.requestFrame]) ∧
      (∀ e ∈ (Engine.render (fun _ _ _ l => l) 1 engQ).1.entities,
          e.meshPosition = e.bodyPosition ∧ e.meshQuaternion = e.bodyQuaternion) ∧
      (Engine.render (fun _ _ _ l => l) 1 engQ).1.entities.length
        = engQ.entities.length) :=
  ⟨fun _ => rfl, spec_c9 (fun _ _ _ l => l) 1 engQ (fun _ => rfl)⟩

/-- Counterexample for C10 as stated: with a pending pan offset accumulated before
`saveState`, the `update()` that `reset()` performs after restoring re-applies the
pending offset to the target, so the target after `reset()` differs from the saved
`target0`. -/
theorem spec_c10_cex :
    ¬ ((reset extQ (saveState pendingPanQ)).target = (saveState pendingPanQ).target0) := by
  intro heq
  have htar : (reset extQ (saveState pendingPanQ)).target
      = updateTarget (dispatchEvent Evt.change (resetRestore (saveState pendingPanQ))) :=
    update_fst_target extQ _
  rw [htar] at heq
  simp [updateTarget, dispatchEvent, resetRestore, saveState, pendingPanQ, baseQ,
    Vec3.add, Vec3.smul] at heq

/-- Claim C10 (amended): after `saveState()` (and any intervening target/camera
mutations that leave the saved `target0`/`position0`/`zoom0` slots untouched),
`reset()` restores `target`, `camera.position` and `camera.zoom` to the saved
values as the starting pose of its closing `update()` call, unconditionally
dispatches a `change` event, leaves the interaction state `NONE`, and preserves
the saved zoom; the closing `update()` re-applies any still-pending pan offset
(damped when damping is enabled) to the restored target, so the final target
equals the saved one exactly when no pan offset is pending. -/
theorem spec_c10 (ext : Ext K) (c0 c : OC K)
    (h0 : c.target0 = (saveState c0).target0)
    (h1 : c.position0 = (saveState c0).position0)
    (h2 : c.zoom0 = (saveState c0).zoom0) :
    (resetRestore c).target = c0.target ∧
    (resetRestore c).cameraPosition = c0.cameraPosition ∧
    (resetRestore c).cameraZoom = c0.cameraZoom ∧
    (reset ext c).state = STATE_NONE ∧
    (reset ext c).cameraZoom = c0.cameraZoom ∧
    (∃ es, (reset ext c).events = (c.events ++ [Evt.change]) ++ es) ∧
    (reset ext c).target
      = (if c.enableDamping = true then c0.target.add (Vec3.smul c.dampingFactor c.panOffset)
         else c0.target.add c.panOffset) ∧
    (c.panOffset = (⟨0, 0, 0⟩ : Vec3 K) → (reset ext c).target = c0.target) := by
  simp only [saveState] at h0 h1 h2
  have hz : (reset ext c).cameraZoom = c.zoom0 := by
    have : (reset ext c).cameraZoom
        = ((update ext (dispatchEvent Evt.change (resetRestore c))).1).cameraZoom := rfl
    rw [this, update_fst_cameraZoom]
    rfl
  have htar : (reset ext c).target
      = updateTarget (dispatchEvent Evt.change (resetRestore c)) :=
    update_fst_target ext _
  have htar' : (reset ext c).target
      = (if c.enableDamping = true then c0.target.add (Vec3.smul c.dampingFactor c.panOffset)
         else c0.target.add c.panOffset) := by
    rw [htar]
    simp only [updateTarget, dispatchEvent, resetRestore]
    rw [h0]
  refine ⟨h0, h1, ?_, rfl, ?_, ?_, htar', ?_⟩
  · exact h2
  · rw [hz]; exact h2
  · rcases update_fst_events_cases ext (dispatchEvent Evt.change (resetRestore c)) with h | h
    · exact ⟨[], by
        have : (reset ext c).events
            = ((update ext (dispatchEvent Evt.change (resetRestore c))).1).events := rfl
        rw [this, h]
        simp [dispatchEvent, resetRestore]⟩
    · exact ⟨[Evt.change], by
        have : (reset ext c).events
            = ((update ext (dispatchEvent Evt.change (resetRestore c))).1).events := rfl
        rw [this, h]
        simp [dispatchEvent, resetRestore]⟩
  · intro hp
    rw [htar', hp]
    have hzero : ∀ v : Vec3 K, v.add (⟨0, 0, 0⟩ : Vec3 K) = v := by
      intro v; cases v; simp [Vec3.add]
    have hs : Vec3.smul c.dampingFactor (⟨0, 0, 0⟩ : Vec3 K) = (⟨0, 0, 0⟩ : Vec3 K) := by
      simp [Vec3.smul]
    split_ifs
    · rw [hs]; exact hzero _
    · exact hzero _

/-- Witness for C10 (amended) at the default controller over `ℚ`. -/
theorem spec_c10_witness :
    ((saveState baseQ).target0 = (saveState baseQ).target0 ∧
      (saveState baseQ).position0 = (saveState baseQ).position0 ∧
      (saveState baseQ).zoom0 = (saveState baseQ).zoom0) ∧
    ((reset extQ (saveState baseQ)).state = STATE_NONE ∧
      (reset extQ (saveState baseQ)).cameraZoom = baseQ.cameraZoom ∧
      ((saveState baseQ).panOffset = (⟨0, 0, 0⟩ : Vec3 ℚ) →
        (reset extQ (saveState baseQ)).target = baseQ.target)) := by
  have h := spec_c10 extQ baseQ (saveState baseQ) rfl rfl rfl
  exact ⟨⟨rfl, rfl, rfl⟩, h.2.2.2.1, h.2.2.2.2.1, h.2.2.2.2.2.2.2⟩

end Vostt
